import Mathlib

/-!
Verification of the Traits change-notification engine (`traits/trait_notifiers.py`).

This file gives a shallow embedding of the notification machinery of
`trait_notifiers.py`:

* the arity-indexed argument-projection tables of
  `StaticAnyTraitChangeNotifyWrapper`, `StaticTraitChangeNotifyWrapper` and the
  `call_0 .. call_4` / `rebind_call_0 .. rebind_call_4` methods of
  `TraitChangeNotifyWrapper`;
* the per-thread notification-exception-handler stack
  (`NotificationExceptionHandler` with `_push_handler`, `_pop_handler`,
  `_handle_exception`, `_get_handlers`, `_check_lock`);
* the registration records (`TraitChangeNotifyWrapper.init`, `equals`,
  `dispose`, `listener_deleted`) and the notification entry points of the
  dynamic, extended and static wrappers.

Python values are modelled by the inductive `PyVal`; the `Uninitialized`
sentinel of `trait_base.py` is the distinguished constructor
`PyVal.uninitialized`, and the identity test `old is not Uninitialized`
becomes a decidable disequality.  Python exceptions are modelled by `Exc`,
and code that can raise is modelled in the `Except Exc` monad.  Listener
callables are opaque: their synchronous behaviour (return normally or raise)
is supplied as an environment function.  Stacks are represented top-first
(Python keeps the top at the end of the list and indexes it with `[-1]`).
-/

/-- Python values, as far as the notification engine observes them: the
engine treats old/new values, objects and names as opaque, and only the
identity comparison against the `Uninitialized` sentinel matters. -/
inductive PyVal where
  | uninitialized
  | noneVal
  | int (n : Int)
  | str (s : String)
  | obj (id : Nat)
  deriving DecidableEq, Repr

/-- Python exceptions that appear in `trait_notifiers.py`:
`TraitNotificationError` (with its message), plus the built-in exception
kinds that the modelled code can raise, and opaque listener-raised
exceptions. -/
inductive Exc where
  | traitNotificationError (msg : String)
  | valueError (msg : String)
  | attributeError
  | typeError
  | userExc (n : Nat)
  deriving DecidableEq, Repr

/-- `isinstance(excp, TraitNotificationError)` from `_handle_exception`. -/
def Exc.isTraitNotificationError : Exc → Bool
  | .traitNotificationError _ => true
  | _ => false

/-- Discriminates the error case of an `Except` result (a raised Python
exception in the model). -/
def isErr {α : Type} : Except Exc α → Bool
  | .error _ => true
  | .ok _ => false

/-!
## Argument-projection tables

The five-entry dictionaries `argument_transforms` of the two static wrapper
classes, and the argument tuples hard-coded in `call_0 .. call_4` of
`TraitChangeNotifyWrapper`.  Arity is a `Fin 5` because every construction
path (`AbstractStaticChangeNotifyWrapper.__init__`,
`TraitChangeNotifyWrapper.init`) rejects a count above 4 before the table is
ever consulted; the `match` on `arity.val` therefore only meets values
`0 .. 4`, and the final catch-all arm is the arity-4 entry.
-/

/-- `StaticAnyTraitChangeNotifyWrapper.argument_transforms`
(`trait_notifiers.py` lines 313-319): 0 ↦ (), 1 ↦ (obj,), 2 ↦ (obj, name),
3 ↦ (obj, name, new), 4 ↦ (obj, name, old, new). -/
def staticAnyTraitArgumentTransforms (arity : Fin 5)
    (obj name old new : PyVal) : List PyVal :=
  match arity.val with
  | 0 => []
  | 1 => [obj]
  | 2 => [obj, name]
  | 3 => [obj, name, new]
  | _ => [obj, name, old, new]

/-- `StaticTraitChangeNotifyWrapper.argument_transforms`
(`trait_notifiers.py` lines 330-336): 0 ↦ (), 1 ↦ (obj,), 2 ↦ (obj, new),
3 ↦ (obj, old, new), 4 ↦ (obj, name, old, new). -/
def staticTraitArgumentTransforms (arity : Fin 5)
    (obj name old new : PyVal) : List PyVal :=
  match arity.val with
  | 0 => []
  | 1 => [obj]
  | 2 => [obj, new]
  | 3 => [obj, old, new]
  | _ => [obj, name, old, new]

/-- The argument tuples passed to `self.dispatch` by
`TraitChangeNotifyWrapper.call_0 .. call_4` (and, identically, by
`rebind_call_0 .. rebind_call_4`): 0 ↦ (), 1 ↦ (new,), 2 ↦ (name, new),
3 ↦ (obj, name, new), 4 ↦ (obj, name, old, new). -/
def dynamicCallArgs (arity : Fin 5) (obj name old new : PyVal) : List PyVal :=
  match arity.val with
  | 0 => []
  | 1 => [new]
  | 2 => [name, new]
  | 3 => [obj, name, new]
  | _ => [obj, name, old, new]

/-!
The next two tables are written from the specification's words (§4.1), not
from the source; they exist only to be compared with the tables above.
-/

/-- Spec §4.1 "per-attribute" table, transcribed from the specification:
0 ↦ (), 1 ↦ (new), 2 ↦ (name, new), 3 ↦ (object, name, new),
4 ↦ (object, name, old, new). -/
def specPerAttributeTable (arity : Fin 5) (obj name old new : PyVal) :
    List PyVal :=
  match arity.val with
  | 0 => []
  | 1 => [new]
  | 2 => [name, new]
  | 3 => [obj, name, new]
  | _ => [obj, name, old, new]

/-- Spec §4.1 "any-attribute" table, transcribed from the specification:
0 ↦ (), 1 ↦ (object), 2 ↦ (object, name), 3 ↦ (object, name, new),
4 ↦ (object, name, old, new). -/
def specAnyAttributeTable (arity : Fin 5) (obj name old new : PyVal) :
    List PyVal :=
  match arity.val with
  | 0 => []
  | 1 => [obj]
  | 2 => [obj, name]
  | 3 => [obj, name, new]
  | _ => [obj, name, old, new]

/-!
## The notification exception handler stack

`NotificationExceptionHandlerState` is the handler record class of the same
name; handler callables are modelled by `HandlerFn` (`_log_exception`, the
built-in default, versus user-supplied handlers identified by number).
-/

/-- A handler callable: either the built-in `_log_exception` default or a
user-supplied callable (identified by a number). -/
inductive HandlerFn where
  | logException
  | user (id : Nat)
  deriving DecidableEq, Repr

/-- `NotificationExceptionHandlerState` (`trait_notifiers.py` lines 80-85):
one record of the per-thread exception-handler stack. -/
structure NotificationExceptionHandlerState where
  handler : HandlerFn
  reraise_exceptions : Bool
  locked : Bool
  deriving DecidableEq, Repr

/-- The record that `_get_handlers` creates when no main-thread handler was
designated: `NotificationExceptionHandlerState(self._log_exception, False,
False)`. -/
def defaultHandlerRecord : NotificationExceptionHandlerState :=
  { handler := HandlerFn.logException, reraise_exceptions := false,
    locked := false }

/-- Message of the `TraitNotificationError` raised by `_check_lock`. -/
def lockedMsg : String :=
  "The traits notification exception handler is locked. No changes are allowed."

/-- Message of the `TraitNotificationError` raised by `_pop_handler` on a
single-entry stack. -/
def popMsg : String :=
  "Attempted to pop an empty traits notification exception handler stack."

/-- `_check_lock` (`trait_notifiers.py` lines 202-208) tests
`handlers[-1].locked`; the stack is top-first here, so the top is the head.
The `headD` default is never consulted: every caller passes a non-empty
stack (`_get_handlers` never returns an empty list). -/
def check_lock (handlers : List NotificationExceptionHandlerState) : Bool :=
  (handlers.headD defaultHandlerRecord).locked

/-- The stack mutation performed by `_push_handler` on one thread's stack:
raise `TraitNotificationError` if the top is locked, else append the new
record (cons, in the top-first representation).  Resolution of
`handler = None` to `_log_exception` happens in `push_handler` below. -/
def pushRecord (handlers : List NotificationExceptionHandlerState)
    (r : NotificationExceptionHandlerState) :
    Except Exc (List NotificationExceptionHandlerState) :=
  if check_lock handlers then
    Except.error (Exc.traitNotificationError lockedMsg)
  else
    Except.ok (r :: handlers)

/-- The stack mutation performed by `_pop_handler` (lines 147-164): raise if
the top is locked; pop when more than one record remains; otherwise raise
`TraitNotificationError` ("cannot pop last handler"). -/
def popRecord (handlers : List NotificationExceptionHandlerState) :
    Except Exc (List NotificationExceptionHandlerState) :=
  if check_lock handlers then
    Except.error (Exc.traitNotificationError lockedMsg)
  else if handlers.length > 1 then
    Except.ok handlers.tail
  else
    Except.error (Exc.traitNotificationError popMsg)

/-- `_handle_exception` (lines 166-175) on one thread's stack, given the
in-flight exception `e`: the top record's handler is invoked with
`(object, trait_name, old, new)`, and the exception is re-raised afterwards
exactly when the record has `reraise_exceptions` set or `e` is a
`TraitNotificationError`.  The result is the pair (record invoked, argument
list) together with the re-raised exception, if any. -/
def handle_exception_list (stack : List NotificationExceptionHandlerState)
    (e : Exc) (obj name old new : PyVal) :
    (NotificationExceptionHandlerState × List PyVal) × Option Exc :=
  let top := stack.headD defaultHandlerRecord
  ((top, [obj, name, old, new]),
   if top.reraise_exceptions || e.isTraitNotificationError then some e
   else none)

/-- `NotificationExceptionHandler` state: `main_thread` is the identity of
the thread whose stack was designated by `_push_handler(main=True)` (Python
stores a reference to that thread's list; since the list is only ever
mutated in place, recording the thread id and looking its stack up is
equivalent), and `threadStacks` is the thread-local storage, `none` for threads
whose stack has not been created yet. -/
structure NEHState where
  main_thread : Option Nat
  threadStacks : Nat → Option (List NotificationExceptionHandlerState)

/-- The state with no designated main handler and no per-thread stack yet
(`NotificationExceptionHandler.__init__`). -/
def initialNEHState : NEHState :=
  { main_thread := none, threadStacks := fun _ => none }

/-- `_get_handlers` (lines 177-200): return the calling thread's stack,
lazily creating it as the one-record list `[fallback]` where the fallback is
`self.main_thread[-1]` (the current top of the designated main thread's
stack) when a main handler was designated, else the built-in default
logging record.  Returns the stack together with the (possibly updated)
state.  The `getD`/`headD` defaults are never consulted: a designated main
stack always exists and is non-empty (`NEHState.WF`). -/
def getHandlers (s : NEHState) (tid : Nat) :
    List NotificationExceptionHandlerState × NEHState :=
  match s.threadStacks tid with
  | some hs => (hs, s)
  | none =>
      let fallback :=
        match s.main_thread with
        | some m => ((s.threadStacks m).getD []).headD defaultHandlerRecord
        | none => defaultHandlerRecord
      ([fallback],
       { s with threadStacks := fun t => if t = tid then some [fallback]
                                   else s.threadStacks t })

/-- `_push_handler` (lines 100-145) for thread `tid`: fetch (lazily
creating) the thread's stack, fail if its top is locked, push
`NotificationExceptionHandlerState(handler or _log_exception,
reraise_exceptions, locked)`, record this thread as the main thread when
`main` is set, and return the previous top (`handlers[-2]` after the
append). -/
def push_handler (s : NEHState) (tid : Nat) (handler : Option HandlerFn)
    (reraise_exceptions main locked : Bool) :
    Except Exc (NotificationExceptionHandlerState × NEHState) :=
  let p := getHandlers s tid
  match pushRecord p.1
      { handler := handler.getD HandlerFn.logException,
        reraise_exceptions := reraise_exceptions, locked := locked } with
  | Except.error e => Except.error e
  | Except.ok hs' =>
      let s2 : NEHState :=
        { p.2 with threadStacks := fun t => if t = tid then some hs'
                                      else p.2.threadStacks t }
      Except.ok (p.1.headD defaultHandlerRecord,
        if main then { s2 with main_thread := some tid } else s2)

/-- `_pop_handler` (lines 147-164) for thread `tid`. -/
def pop_handler (s : NEHState) (tid : Nat) : Except Exc NEHState :=
  let p := getHandlers s tid
  match popRecord p.1 with
  | Except.error e => Except.error e
  | Except.ok hs' =>
      Except.ok { p.2 with threadStacks := fun t => if t = tid then some hs'
                                              else p.2.threadStacks t }

/-- `_handle_exception` (lines 166-175) for thread `tid`: handle the
in-flight exception `e` with the top record of the calling thread's stack
(created lazily if needed). -/
def handle_exception_st (s : NEHState) (tid : Nat) (e : Exc)
    (obj name old new : PyVal) :
    ((NotificationExceptionHandlerState × List PyVal) × Option Exc) ×
      NEHState :=
  let p := getHandlers s tid
  (handle_exception_list p.1 e obj name old new, p.2)

/-- Invariant of the handler state: every created stack is non-empty, and a
designated main thread has a created stack (in Python, `main_thread` holds a
direct reference to that list, so this holds by construction). -/
def NEHState.WF (s : NEHState) : Prop :=
  (∀ tid hs, s.threadStacks tid = some hs → hs ≠ []) ∧
  (∀ m, s.main_thread = some m → s.threadStacks m ≠ none)

/-!
## Listener registrations (`TraitChangeNotifyWrapper` and friends)

A handler passed to a registration is either a plain function or a method
(`types.MethodType`), with its `__name__`, its `func_code.co_argcount` and —
for methods — its `im_self` (which is `None` for unbound methods).  Python
compares functions by identity and bound methods by (function, receiver);
structural equality on `PyHandler` stands in for `==` on handlers.
-/

/-- A Python callable as observed by `TraitChangeNotifyWrapper.init` and
`equals`: a plain function, or a method with its (possibly absent)
receiver. -/
inductive PyHandler where
  | function (hname : String) (co_argcount : Nat)
  | boundMethod (hname : String) (co_argcount : Nat) (im_self : Option Nat)
  deriving DecidableEq, Repr

/-- `handler.__name__` — used in the error messages of `init`. -/
def PyHandler.pyname : PyHandler → String
  | .function n _ => n
  | .boundMethod n _ _ => n

/-- The argument count that `init` checks against 4: the declared
`co_argcount`, with the implicit receiver stripped (`co_argcount - 1`) for a
method that is bound to a receiver (`im_self is not None`).  An `Int`
because Python's subtraction is not truncated. -/
def PyHandler.effectiveArity : PyHandler → Int
  | .function _ c => (c : Int)
  | .boundMethod _ c (some _) => (c : Int) - 1
  | .boundMethod _ c none => (c : Int)

/-- A weak reference (`weakref.ref`): dereferencing yields the receiver
while it is alive and `None` after it has been collected. -/
inductive WeakRef where
  | alive (receiverId : Nat)
  | dead
  deriving DecidableEq, Repr

/-- The `call_method` name stored by `init`: `'call_%d'` for a plain
function (or unbound method, or function with an explicit target) and
`'rebind_call_%d'` for a method bound to a receiver.  The arity is a
`Fin 5` because `init` raises before storing any larger value. -/
inductive CallMethod where
  | call (arity : Fin 5)
  | rebind_call (arity : Fin 5)
  deriving DecidableEq, Repr

/-- The state of a `TraitChangeNotifyWrapper` (lines 342-424).  `name` is
`self.name` (the bound method's name, or `None`); `handler` is
`self.handler` (`none` when the attribute was never assigned, which is the
case exactly on the rebind path); `object` is `self.object` (`none` models
both "attribute never set" and "set to `None`" — the code only ever tests
`is not None`); `ownerSet` records whether `self.owner` still references
the owning notifier collection. -/
structure TraitChangeNotifyWrapper where
  name : Option String
  handler : Option PyHandler
  object : Option WeakRef
  ownerSet : Bool
  call_method : CallMethod
  deriving DecidableEq, Repr

/-- Message of the `TraitNotificationError` raised by
`AbstractStaticChangeNotifyWrapper.__init__` for a handler with more than
4 declared arguments. -/
def staticInitMsg (hname : String) (arg_count : Nat) : String :=
  "Invalid number of arguments for the static anytrait change " ++
  "notification handler: " ++ hname ++
  ". A maximum of 4 arguments is allowed, but " ++ toString arg_count ++
  " were specified."

/-- Message of the `TraitNotificationError` raised by
`TraitChangeNotifyWrapper.init` for a handler with more than 4 arguments
(identical wording at both raise sites of `init`). -/
def dynamicInitMsg (hname : String) (arg_count : Int) : String :=
  "Invalid number of arguments for the dynamic trait change " ++
  "notification handler: " ++ hname ++
  ". A maximum of 4 arguments is allowed, but " ++ toString arg_count ++
  " were specified."

/-- `AbstractStaticChangeNotifyWrapper.__init__` (lines 277-287): reject a
handler whose `co_argcount` exceeds 4 with a `TraitNotificationError`
naming the handler and its count; otherwise record the arity (which then
selects `argument_transforms[arg_count]`). -/
def abstractStaticInit (hname : String) (co_argcount : Nat) :
    Except Exc (Fin 5) :=
  if h : co_argcount > 4 then
    Except.error (Exc.traitNotificationError (staticInitMsg hname co_argcount))
  else
    Except.ok ⟨co_argcount, by omega⟩

/-- `TraitChangeNotifyWrapper.init` (lines 347-388).  A method bound to a
receiver takes the rebind path: weak reference to the receiver, method name
recorded, arity `co_argcount - 1`, failure when that exceeds 4.  Everything
else (plain functions and unbound methods) takes the function path: the
handler itself is stored, with a weak reference to `target` when one is
supplied, arity `co_argcount` un-stripped, failure when it exceeds 4.
A raising `__init__` means no wrapper object reaches the caller, hence the
`Except` result.  (Python would build `'rebind_call_-1'` for a bound method
declaring zero arguments; no such method object exists, and the model
truncates that impossible arity to 0.) -/
def TraitChangeNotifyWrapper.init (handler : PyHandler)
    (target : Option Nat) : Except Exc TraitChangeNotifyWrapper :=
  match handler with
  | PyHandler.boundMethod hname cnt (some receiver) =>
      let arg_count : Int := (cnt : Int) - 1
      if h : arg_count > 4 then
        Except.error (Exc.traitNotificationError (dynamicInitMsg hname arg_count))
      else
        Except.ok
          { name := some hname, handler := none,
            object := some (WeakRef.alive receiver), ownerSet := true,
            call_method := CallMethod.rebind_call ⟨arg_count.toNat, by omega⟩ }
  | h' =>
      let cnt : Nat := match h' with
        | PyHandler.function _ c => c
        | PyHandler.boundMethod _ c _ => c
      if h : cnt > 4 then
        Except.error
          (Exc.traitNotificationError (dynamicInitMsg h'.pyname (cnt : Int)))
      else
        Except.ok
          { name := none, handler := some h',
            object := target.map WeakRef.alive, ownerSet := target.isSome,
            call_method := CallMethod.call ⟨cnt, by omega⟩ }

/-- `TraitChangeNotifyWrapper.dispose` (lines 423-424): `self.object =
None`.  Nothing else changes. -/
def TraitChangeNotifyWrapper.dispose (w : TraitChangeNotifyWrapper) :
    TraitChangeNotifyWrapper :=
  { w with object := none }

/-- `TraitChangeNotifyWrapper.listener_deleted` (lines 413-421), acting on
the wrapper together with the contents of its owning collection (wrappers
identified by number; `selfId` is this wrapper's identity).  When
`self.owner` is still set: `self.owner.remove(self)` removes the first
occurrence, a `ValueError` for an already-removed wrapper is swallowed, and
then `self.object = self.owner = None`.  When `self.owner` is already
`None` (the cleanup already ran), `None.remove` raises an
`AttributeError`, which the `except ValueError` clause does not catch. -/
def TraitChangeNotifyWrapper.listener_deleted (selfId : Nat)
    (coll : List Nat) (w : TraitChangeNotifyWrapper) :
    Except Exc (List Nat × TraitChangeNotifyWrapper) :=
  if w.ownerSet then
    Except.ok (coll.erase selfId, { w with object := none, ownerSet := false })
  else
    Except.error Exc.attributeError

/-- The argument of `equals`: either the wrapper object itself (`handler is
self`) or a Python callable. -/
inductive EqualsArg where
  | selfRef
  | py (h : PyHandler)
  deriving DecidableEq, Repr

/-- `TraitChangeNotifyWrapper.equals` (lines 403-411).  `handler is self`
is `selfRef`.  For a method bound to a receiver the code evaluates
`(handler.__name__ == self.name) and (handler.im_self is self.object())`:
when the name matches but `self.object` is `None` (a disposed rebind
wrapper), calling `None` raises a `TypeError`; a dead reference yields
`None`, which is never `im_self`.  Otherwise the code evaluates
`(self.name is None) and (handler == self.handler)`: when `self.name` is
`None` but `self.handler` was never assigned, reading it raises an
`AttributeError` (unreachable for wrappers built by `init`). -/
def TraitChangeNotifyWrapper.equals (w : TraitChangeNotifyWrapper)
    (arg : EqualsArg) : Except Exc Bool :=
  match arg with
  | EqualsArg.selfRef => Except.ok true
  | EqualsArg.py handler =>
      match handler with
      | PyHandler.boundMethod hname _ (some receiver) =>
          if w.name = some hname then
            match w.object with
            | none => Except.error Exc.typeError
            | some WeakRef.dead => Except.ok false
            | some (WeakRef.alive r) => Except.ok (decide (receiver = r))
          else
            Except.ok false
      | h' =>
          if w.name = none then
            match w.handler with
            | none => Except.error Exc.attributeError
            | some h0 => Except.ok (decide (h' = h0))
          else
            Except.ok false

/-- `AbstractStaticChangeNotifyWrapper.equals` (lines 301-302): `return
False`, whatever the argument — including the wrapper itself. -/
def staticEquals (_arg : EqualsArg) : Bool :=
  false

/-- Wrappers built by `init` never store a receiver-bound method in
`self.handler` (such a handler takes the rebind path, which stores no
handler at all). -/
def storedHandlerOK (w : TraitChangeNotifyWrapper) : Bool :=
  match w.handler with
  | some (PyHandler.boundMethod _ _ (some _)) => false
  | _ => true

/-!
## Notification semantics

Delivering one event through one wrapper.  The synchronous outcome of
`self.dispatch(handler, *args)` is supplied by an environment: for the
plain `TraitChangeNotifyWrapper` the dispatch runs the handler inline, and
`FastUITraitChangeNotifyWrapper` / `NewTraitChangeNotifyWrapper` override
only `dispatch` (UI-marshalled and detached-thread execution) while
inheriting `call_0 .. call_4` and `rebind_call_0 .. rebind_call_4`
unchanged, so one semantics with an abstract dispatch outcome covers all
three dispatch policies.
-/

/-- Synchronous outcome of invoking a callable: return normally, or raise
an exception. -/
inductive ListenerBehavior where
  | returns
  | raises (e : Exc)
  deriving DecidableEq, Repr

/-- What a wrapper's notification call did: the argument list handed to
`self.dispatch` (if dispatch was reached), the exception-handler record
invoked by `handle_exception` together with its arguments (if a raised
exception was routed there), and the exception propagating out of the call
(if any). -/
structure CallResult where
  dispatchedArgs : Option (List PyVal)
  handled : Option (NotificationExceptionHandlerState × List PyVal)
  raised : Option Exc
  deriving DecidableEq, Repr

/-- The result of a notification that did nothing at all: no dispatch, no
exception handling, no raised exception. -/
def noCall : CallResult :=
  { dispatchedArgs := none, handled := none, raised := none }

/-- Identifies the callable a wrapper invokes: the stored `self.handler`,
or the freshly rebound `getattr(obj(), self.name)` on the live receiver. -/
inductive CallableRef where
  | stored (h : PyHandler)
  | method (receiverId : Nat) (mname : String)
  deriving DecidableEq, Repr

/-- Environment giving the synchronous outcome of dispatching a callable on
an argument list. -/
def ListenerEnv : Type :=
  CallableRef → List PyVal → ListenerBehavior

/-- The body of every `try: self.dispatch(...) except Exception:
handle_exception(...)` block: run the callable on `args`; on an exception,
route it through `_handle_exception` on the calling thread's stack (top
record invoked with `(object, trait_name, old, new)`, re-raise when the
record demands it or the exception is a `TraitNotificationError`). -/
def runGuarded (stack : List NotificationExceptionHandlerState)
    (listener : List PyVal → ListenerBehavior) (args : List PyVal)
    (obj name old new : PyVal) : CallResult :=
  match listener args with
  | ListenerBehavior.returns =>
      { dispatchedArgs := some args, handled := none, raised := none }
  | ListenerBehavior.raises e =>
      let h := handle_exception_list stack e obj name old new
      { dispatchedArgs := some args, handled := some h.1, raised := h.2 }

/-- An exception raised inside the `try` block before `dispatch` is reached
(for example `getattr(None, self.name)` on a dead reference): no dispatch,
but the exception is routed through `_handle_exception` all the same. -/
def routeException (stack : List NotificationExceptionHandlerState)
    (e : Exc) (obj name old new : PyVal) : CallResult :=
  let h := handle_exception_list stack e obj name old new
  { dispatchedArgs := none, handled := some h.1, raised := h.2 }

/-- `TraitChangeNotifyWrapper.__call__` dispatching to `call_0 .. call_4`
or `rebind_call_0 .. rebind_call_4` (lines 390-502).  The `call_N` methods
guard on `old is not Uninitialized` and dispatch the stored handler on the
arity-projected arguments.  The `rebind_call_N` methods additionally
require `self.object is not None`; a dead weak reference makes
`getattr(obj(), self.name)` raise an `AttributeError` inside the `try`
block.  (Reading an unassigned `self.handler` would likewise raise inside
the `try`; wrappers built by `init` always have it assigned on the call
path.) -/
def notifyWrapper (env : ListenerEnv) (w : TraitChangeNotifyWrapper)
    (stack : List NotificationExceptionHandlerState)
    (obj name old new : PyVal) : CallResult :=
  match w.call_method with
  | CallMethod.call arity =>
      if old = PyVal.uninitialized then noCall
      else
        match w.handler with
        | none => routeException stack Exc.attributeError obj name old new
        | some h =>
            runGuarded stack (env (CallableRef.stored h))
              (dynamicCallArgs arity obj name old new) obj name old new
  | CallMethod.rebind_call arity =>
      match w.object with
      | none => noCall
      | some ref =>
          if old = PyVal.uninitialized then noCall
          else
            match ref with
            | WeakRef.dead =>
                routeException stack Exc.attributeError obj name old new
            | WeakRef.alive r =>
                runGuarded stack
                  (env (CallableRef.method r (w.name.getD "")))
                  (dynamicCallArgs arity obj name old new) obj name old new

/-- `ExtendedTraitChangeNotifyWrapper.call_0 .. call_4` and
`rebind_call_0 .. rebind_call_4` (lines 508-581): identical to the base
class except that no method tests `old` against `Uninitialized`. -/
def notifyExtendedWrapper (env : ListenerEnv)
    (w : TraitChangeNotifyWrapper)
    (stack : List NotificationExceptionHandlerState)
    (obj name old new : PyVal) : CallResult :=
  match w.call_method with
  | CallMethod.call arity =>
      match w.handler with
      | none => routeException stack Exc.attributeError obj name old new
      | some h =>
          runGuarded stack (env (CallableRef.stored h))
            (dynamicCallArgs arity obj name old new) obj name old new
  | CallMethod.rebind_call arity =>
      match w.object with
      | none => noCall
      | some ref =>
          match ref with
          | WeakRef.dead =>
              routeException stack Exc.attributeError obj name old new
          | WeakRef.alive r =>
              runGuarded stack
                (env (CallableRef.method r (w.name.getD "")))
                (dynamicCallArgs arity obj name old new) obj name old new

/-- `AbstractStaticChangeNotifyWrapper.__call__` (lines 289-299): skip
entirely when `old is Uninitialized`, else apply the transform chosen at
construction time and run the handler, routing a raised exception through
`handle_exception`. -/
def staticWrapperCall
    (transform : PyVal → PyVal → PyVal → PyVal → List PyVal)
    (listener : List PyVal → ListenerBehavior)
    (stack : List NotificationExceptionHandlerState)
    (obj name old new : PyVal) : CallResult :=
  if old = PyVal.uninitialized then noCall
  else runGuarded stack listener (transform obj name old new) obj name old new

/-- An environment in which every callable returns normally. -/
def envReturns : ListenerEnv :=
  fun _ _ => ListenerBehavior.returns

/-- An environment in which every callable raises `ValueError`. -/
def envRaisesValueError : ListenerEnv :=
  fun _ _ => ListenerBehavior.raises (Exc.valueError "listener failed")

/-!
## Concrete fixtures used by witnesses and counterexamples
-/

/-- A wrapper as built by `init` for the plain one-argument function `f`
(no target): call path, arity 1. -/
def wFun1 : TraitChangeNotifyWrapper :=
  { name := none, handler := some (PyHandler.function "f" 1), object := none,
    ownerSet := false, call_method := CallMethod.call 1 }

/-- A wrapper as built by `init` for the method `m` (one argument after the
receiver) bound to the live receiver `2`: rebind path, arity 1. -/
def wMeth1 : TraitChangeNotifyWrapper :=
  { name := some "m", handler := none,
    object := some (WeakRef.alive 2), ownerSet := true,
    call_method := CallMethod.rebind_call 1 }

/-!
## C1 — argument-projection tables
-/

/-- C1 is false as stated: the claim's per-attribute table says an arity-1
listener receives `(new,)`, but the statically registered per-attribute
wrapper (`StaticTraitChangeNotifyWrapper`) passes `(obj,)`.  Concretely,
for the event `(obj 1, "x", 0, 5)` the static per-attribute projection at
arity 1 is `[obj 1]`, not the `[5]` demanded by the spec table. -/
theorem c1_static_table_counterexample :
    ¬ (staticTraitArgumentTransforms 1 (PyVal.obj 1) (PyVal.str "x")
          (PyVal.int 0) (PyVal.int 5)
        = specPerAttributeTable 1 (PyVal.obj 1) (PyVal.str "x")
          (PyVal.int 0) (PyVal.int 5)) := by
  decide

/-- C1 (amended): for every event and every arity 0-4, the dynamically
registered per-attribute wrappers (`call_0 .. call_4`) project exactly the
spec's per-attribute table, and the static any-attribute wrappers project
exactly the spec's any-attribute table; the static per-attribute wrappers,
however, use the table 0 ↦ (), 1 ↦ (object,), 2 ↦ (object, new),
3 ↦ (object, old, new), 4 ↦ (object, name, old, new). -/
theorem c1_argument_tables_amended :
    (∀ (a : Fin 5) (obj name old new : PyVal),
        dynamicCallArgs a obj name old new
          = specPerAttributeTable a obj name old new) ∧
    (∀ (a : Fin 5) (obj name old new : PyVal),
        staticAnyTraitArgumentTransforms a obj name old new
          = specAnyAttributeTable a obj name old new) ∧
    (∀ obj name old new : PyVal,
        staticTraitArgumentTransforms 0 obj name old new = [] ∧
        staticTraitArgumentTransforms 1 obj name old new = [obj] ∧
        staticTraitArgumentTransforms 2 obj name old new = [obj, new] ∧
        staticTraitArgumentTransforms 3 obj name old new = [obj, old, new] ∧
        staticTraitArgumentTransforms 4 obj name old new
          = [obj, name, old, new]) := by
  refine ⟨?_, ?_, ?_⟩
  · intro a obj name old new
    fin_cases a <;> rfl
  · intro a obj name old new
    fin_cases a <;> rfl
  · intro obj name old new
    exact ⟨rfl, rfl, rfl, rfl, rfl⟩

/-!
## C10 — static wrapper equality is constantly false
-/

/-- C10: `AbstractStaticChangeNotifyWrapper.equals` returns `False` for
every argument, the wrapper itself included, so a scan that removes the
first registration matching a supplied callback under this equality never
matches a statically registered listener. -/
theorem c10_static_equals_always_false :
    (∀ arg : EqualsArg, staticEquals arg = false) ∧
    (staticEquals EqualsArg.selfRef = false) ∧
    (∀ (arg : EqualsArg) (l : List Nat),
        l.filter (fun _ => staticEquals arg) = []) := by
  refine ⟨fun _ => rfl, rfl, ?_⟩
  intro arg l
  induction l with
  | nil => rfl
  | cons x xs ih => simp [List.filter_cons, staticEquals, ih]

/-!
## C2 — the Uninitialized sentinel suppresses delivery
-/

/-- C2 is false as stated: `ExtendedTraitChangeNotifyWrapper.call_1` does
not test `old` against `Uninitialized`, so an extended registration for a
one-argument function dispatches the callback even when `old` is the
sentinel — here the listener is invoked with `(5,)`. -/
theorem c2_extended_uninitialized_counterexample :
    (notifyExtendedWrapper envReturns wFun1 [defaultHandlerRecord]
        (PyVal.obj 1) (PyVal.str "x") PyVal.uninitialized
        (PyVal.int 5)).dispatchedArgs
      = some [PyVal.int 5] := by
  rfl

/-- C2 (amended): for static wrappers and for every
`TraitChangeNotifyWrapper` (including the UI-dispatched and
detached-thread subclasses, which inherit `call_0 .. call_4` and
`rebind_call_0 .. rebind_call_4` unchanged), an event whose `old` value is
the `Uninitialized` sentinel is skipped entirely: no dispatch, no
exception handling, nothing raised.  `ExtendedTraitChangeNotifyWrapper`,
however, performs no such test and dispatches the projected arguments
regardless. -/
theorem c2_uninitialized_skip_amended :
    (∀ (env : ListenerEnv) (w : TraitChangeNotifyWrapper)
        (stack : List NotificationExceptionHandlerState)
        (obj name new : PyVal),
        notifyWrapper env w stack obj name PyVal.uninitialized new
          = noCall) ∧
    (∀ (transform : PyVal → PyVal → PyVal → PyVal → List PyVal)
        (listener : List PyVal → ListenerBehavior)
        (stack : List NotificationExceptionHandlerState)
        (obj name new : PyVal),
        staticWrapperCall transform listener stack obj name
          PyVal.uninitialized new = noCall) ∧
    (∀ (env : ListenerEnv) (w : TraitChangeNotifyWrapper)
        (stack : List NotificationExceptionHandlerState)
        (obj name new : PyVal) (a : Fin 5) (h : PyHandler),
        w.call_method = CallMethod.call a → w.handler = some h →
        (notifyExtendedWrapper env w stack obj name PyVal.uninitialized
            new).dispatchedArgs
          = some (dynamicCallArgs a obj name PyVal.uninitialized new)) := by
  refine ⟨?_, ?_, ?_⟩
  · rintro env ⟨n, hd, ob, ow, cm⟩ stack obj name new
    cases cm with
    | call a => simp [notifyWrapper]
    | rebind_call a => cases ob <;> simp [notifyWrapper]
  · intro transform listener stack obj name new
    simp [staticWrapperCall]
  · rintro env ⟨n, hd, ob, ow, cm⟩ stack obj name new a h hcm hh
    simp only [] at hcm hh
    subst hcm
    subst hh
    cases henv : env (CallableRef.stored h)
        (dynamicCallArgs a obj name PyVal.uninitialized new) <;>
      simp [notifyExtendedWrapper, runGuarded, henv]

/-- C2 amended, applied: the uninitialized-sentinel event is skipped by the
dynamic wrapper `wFun1`, while the extended wrapper built from the same
data dispatches `(5,)` for it. -/
theorem c2_uninitialized_skip_witness :
    (notifyWrapper envReturns wFun1 [defaultHandlerRecord] (PyVal.obj 1)
        (PyVal.str "x") PyVal.uninitialized (PyVal.int 5) = noCall) ∧
    (notifyExtendedWrapper envReturns wFun1 [defaultHandlerRecord]
        (PyVal.obj 1) (PyVal.str "x") PyVal.uninitialized
        (PyVal.int 5)).dispatchedArgs
      = some (dynamicCallArgs 1 (PyVal.obj 1) (PyVal.str "x")
          PyVal.uninitialized (PyVal.int 5)) :=
  ⟨c2_uninitialized_skip_amended.1 envReturns wFun1 [defaultHandlerRecord]
      (PyVal.obj 1) (PyVal.str "x") (PyVal.int 5),
   c2_uninitialized_skip_amended.2.2 envReturns wFun1 [defaultHandlerRecord]
      (PyVal.obj 1) (PyVal.str "x") (PyVal.int 5) 1
      (PyHandler.function "f" 1) rfl rfl⟩

/-!
## C3 — routing of listener exceptions
-/

/-- C3: when the listener raises during the synchronous portion of a
dynamic wrapper's dispatch, `handle_exception` invokes the top record of
the calling thread's handler stack with `(object, name, old, new)`, and
the exception propagates out of the notification call exactly when that
record's `reraise_exceptions` flag is set or the exception is itself a
`TraitNotificationError`; otherwise the call returns normally. -/
theorem c3_listener_exception_routing
    (env : ListenerEnv) (w : TraitChangeNotifyWrapper)
    (stack : List NotificationExceptionHandlerState)
    (obj name old new : PyVal) (a : Fin 5) (h : PyHandler) (e : Exc)
    (hcm : w.call_method = CallMethod.call a)
    (hh : w.handler = some h)
    (hold : old ≠ PyVal.uninitialized)
    (hraise : env (CallableRef.stored h) (dynamicCallArgs a obj name old new)
        = ListenerBehavior.raises e) :
    (notifyWrapper env w stack obj name old new).handled
        = some (stack.headD defaultHandlerRecord, [obj, name, old, new]) ∧
    ((notifyWrapper env w stack obj name old new).raised = some e ↔
        ((stack.headD defaultHandlerRecord).reraise_exceptions = true ∨
         e.isTraitNotificationError = true)) := by
  obtain ⟨n, hd, ob, ow, cm⟩ := w
  simp only [TraitChangeNotifyWrapper.call_method] at hcm
  simp only [TraitChangeNotifyWrapper.handler] at hh
  subst hcm
  subst hh
  simp only [notifyWrapper, hold, if_neg, runGuarded, hraise,
    handle_exception_list]
  constructor
  · simp
  · cases hb : (stack.headD defaultHandlerRecord).reraise_exceptions <;>
      cases ht : e.isTraitNotificationError <;>
      simp [hb, ht, hold]

/-- C3 applied: with the single default record (`reraise` off) on the
stack, a listener raising `ValueError` has the default record invoked with
the full event, and nothing propagates. -/
theorem c3_listener_exception_routing_witness :
    (notifyWrapper envRaisesValueError wFun1 [defaultHandlerRecord]
        (PyVal.obj 1) (PyVal.str "x") (PyVal.int 0) (PyVal.int 5)).handled
      = some ([defaultHandlerRecord].headD defaultHandlerRecord,
          [PyVal.obj 1, PyVal.str "x", PyVal.int 0, PyVal.int 5]) ∧
    ((notifyWrapper envRaisesValueError wFun1 [defaultHandlerRecord]
        (PyVal.obj 1) (PyVal.str "x") (PyVal.int 0) (PyVal.int 5)).raised
        = some (Exc.valueError "listener failed") ↔
      (([defaultHandlerRecord].headD defaultHandlerRecord).reraise_exceptions
          = true ∨
        (Exc.valueError "listener failed").isTraitNotificationError
          = true)) :=
  c3_listener_exception_routing envRaisesValueError wFun1
    [defaultHandlerRecord] (PyVal.obj 1) (PyVal.str "x") (PyVal.int 0)
    (PyVal.int 5) 1 (PyHandler.function "f" 1)
    (Exc.valueError "listener failed") rfl rfl (by decide) rfl

/-!
## C4 — registration-time arity check
-/

/-- C4: constructing a static or dynamic registration fails with a
`TraitNotificationError` naming the callable and its declared arity (for a
bound method, the count with the implicit receiver stripped) exactly when
that arity exceeds 4 — the raising constructor hands no wrapper back — and
construction succeeds for arities 0 through 4. -/
theorem c4_registration_arity :
    (∀ (hname : String) (cnt : Nat), 4 < cnt →
        abstractStaticInit hname cnt
          = Except.error
              (Exc.traitNotificationError (staticInitMsg hname cnt))) ∧
    (∀ (hname : String) (cnt : Nat), cnt ≤ 4 →
        ∃ a : Fin 5,
          abstractStaticInit hname cnt = Except.ok a ∧ a.val = cnt) ∧
    (∀ (h : PyHandler) (target : Option Nat), 4 < h.effectiveArity →
        TraitChangeNotifyWrapper.init h target
          = Except.error
              (Exc.traitNotificationError
                (dynamicInitMsg h.pyname h.effectiveArity))) ∧
    (∀ (h : PyHandler) (target : Option Nat), h.effectiveArity ≤ 4 →
        ∃ w, TraitChangeNotifyWrapper.init h target = Except.ok w) := by
  refine ⟨?_, ?_, ?_, ?_⟩
  · intro hname cnt hlt
    simp [abstractStaticInit, hlt]
  · intro hname cnt hle
    have hc : ¬ cnt > 4 := by omega
    exact ⟨⟨cnt, by omega⟩, by simp [abstractStaticInit, hc], rfl⟩
  · intro h target hlt
    cases h with
    | function hname c =>
        simp only [PyHandler.effectiveArity] at hlt
        have hc : c > 4 := by exact_mod_cast hlt
        simp [TraitChangeNotifyWrapper.init, hc, PyHandler.pyname,
          PyHandler.effectiveArity]
    | boundMethod hname c self =>
        cases self with
        | some receiver =>
            simp only [PyHandler.effectiveArity] at hlt
            simp [TraitChangeNotifyWrapper.init, hlt, PyHandler.pyname,
              PyHandler.effectiveArity]
        | none =>
            simp only [PyHandler.effectiveArity] at hlt
            have hc : c > 4 := by exact_mod_cast hlt
            simp [TraitChangeNotifyWrapper.init, hc, PyHandler.pyname,
              PyHandler.effectiveArity]
  · intro h target hle
    cases h with
    | function hname c =>
        simp only [PyHandler.effectiveArity] at hle
        have hc : ¬ c > 4 := by exact_mod_cast not_lt.mpr hle
        refine ⟨{ name := none,
                  handler := some (PyHandler.function hname c),
                  object := target.map WeakRef.alive,
                  ownerSet := target.isSome,
                  call_method := CallMethod.call ⟨c, by omega⟩ }, ?_⟩
        simp [TraitChangeNotifyWrapper.init, hc]
    | boundMethod hname c self =>
        cases self with
        | some receiver =>
            simp only [PyHandler.effectiveArity] at hle
            have hc : ¬ ((c : Int) - 1 > 4) := not_lt.mpr hle
            refine ⟨{ name := some hname, handler := none,
                      object := some (WeakRef.alive receiver),
                      ownerSet := true,
                      call_method := CallMethod.rebind_call
                        ⟨((c : Int) - 1).toNat, by omega⟩ }, ?_⟩
            simp [TraitChangeNotifyWrapper.init, hc]
        | none =>
            simp only [PyHandler.effectiveArity] at hle
            have hc : ¬ c > 4 := by exact_mod_cast not_lt.mpr hle
            refine ⟨{ name := none,
                      handler := some (PyHandler.boundMethod hname c none),
                      object := target.map WeakRef.alive,
                      ownerSet := target.isSome,
                      call_method := CallMethod.call ⟨c, by omega⟩ }, ?_⟩
            simp [TraitChangeNotifyWrapper.init, hc]

/-- C4 applied: a five-argument function is rejected with the error naming
it and its arity; the bound method `m` declaring six arguments (five after
stripping the receiver) is rejected naming arity 5; a four-argument
function and the bound method `m` with receiver stripped to arity 4 are
accepted. -/
theorem c4_registration_arity_witness :
    (abstractStaticInit "g" 5
        = Except.error
            (Exc.traitNotificationError (staticInitMsg "g" 5))) ∧
    (TraitChangeNotifyWrapper.init (PyHandler.boundMethod "m" 6 (some 2))
        none
        = Except.error
            (Exc.traitNotificationError (dynamicInitMsg "m" 5))) ∧
    (∃ a : Fin 5, abstractStaticInit "g" 4 = Except.ok a ∧ a.val = 4) ∧
    (∃ w, TraitChangeNotifyWrapper.init
        (PyHandler.boundMethod "m" 5 (some 2)) none = Except.ok w) :=
  ⟨c4_registration_arity.1 "g" 5 (by omega),
   c4_registration_arity.2.2.1 (PyHandler.boundMethod "m" 6 (some 2)) none
     (by decide),
   c4_registration_arity.2.1 "g" 4 (by omega),
   c4_registration_arity.2.2.2 (PyHandler.boundMethod "m" 5 (some 2)) none
     (by decide)⟩

/-!
## C5 / C9 — disposal and weak-reference cleanup
-/

/-- A rebind-path wrapper whose `self.object` has been cleared (by
`dispose` or by `listener_deleted`) delivers nothing: `rebind_call_N`
guards on `obj is not None`. -/
theorem notify_rebind_object_none (env : ListenerEnv)
    (w : TraitChangeNotifyWrapper)
    (stack : List NotificationExceptionHandlerState)
    (obj name old new : PyVal) (a : Fin 5)
    (hcm : w.call_method = CallMethod.rebind_call a)
    (hob : w.object = none) :
    notifyWrapper env w stack obj name old new = noCall := by
  obtain ⟨n, hd, ob, ow, cm⟩ := w
  simp only [TraitChangeNotifyWrapper.call_method] at hcm
  simp only [TraitChangeNotifyWrapper.object] at hob
  subst hcm
  subst hob
  rfl

/-- A target-weakly-bound registration of the plain function `f` (call
path, arity 1), before disposal. -/
def wFunTgt : TraitChangeNotifyWrapper :=
  { name := none, handler := some (PyHandler.function "f" 1),
    object := some (WeakRef.alive 7), ownerSet := true,
    call_method := CallMethod.call 1 }

/-- C5 is false as stated: `dispose` only sets `self.object = None`, and
the `call_N` methods of a plain-function registration never consult
`self.object`, so after `dispose()` the registration still dispatches —
here the disposed wrapper for `f` is invoked with `(5,)`. -/
theorem c5_dispose_call_counterexample :
    (notifyWrapper envReturns (TraitChangeNotifyWrapper.dispose wFunTgt)
        [defaultHandlerRecord] (PyVal.obj 1) (PyVal.str "x") (PyVal.int 0)
        (PyVal.int 5)).dispatchedArgs
      = some [PyVal.int 5] := by
  rfl

/-- C5 (amended): for weakly-bound method registrations (the rebind path)
notification is a no-op — nothing invoked, nothing handled, nothing
raised — once `self.object` is cleared, in particular after `dispose()`;
`dispose()` is idempotent.  For plain-function registrations (the call
path) `dispose()` changes nothing observable: the `call_N` methods ignore
the cleared state and dispatch exactly as before. -/
theorem c5_disposed_noop_amended :
    (∀ (env : ListenerEnv) (w : TraitChangeNotifyWrapper)
        (stack : List NotificationExceptionHandlerState)
        (obj name old new : PyVal) (a : Fin 5),
        w.call_method = CallMethod.rebind_call a → w.object = none →
        notifyWrapper env w stack obj name old new = noCall) ∧
    (∀ (env : ListenerEnv) (w : TraitChangeNotifyWrapper)
        (stack : List NotificationExceptionHandlerState)
        (obj name old new : PyVal) (a : Fin 5),
        w.call_method = CallMethod.rebind_call a →
        notifyWrapper env w.dispose stack obj name old new = noCall) ∧
    (∀ w : TraitChangeNotifyWrapper, w.dispose.dispose = w.dispose) ∧
    (∀ (env : ListenerEnv) (w : TraitChangeNotifyWrapper)
        (stack : List NotificationExceptionHandlerState)
        (obj name old new : PyVal) (a : Fin 5),
        w.call_method = CallMethod.call a →
        notifyWrapper env w.dispose stack obj name old new
          = notifyWrapper env w stack obj name old new) := by
  refine ⟨?_, ?_, ?_, ?_⟩
  · exact fun env w stack obj name old new a hcm hob =>
      notify_rebind_object_none env w stack obj name old new a hcm hob
  · intro env w stack obj name old new a hcm
    exact notify_rebind_object_none env w.dispose stack obj name old new a
      hcm rfl
  · intro w
    rfl
  · rintro env ⟨n, hd, ob, ow, cm⟩ stack obj name old new a hcm
    simp only [TraitChangeNotifyWrapper.call_method] at hcm
    subst hcm
    rfl

/-- C5 amended, applied: the disposed bound-method wrapper `wMeth1`
delivers nothing. -/
theorem c5_disposed_noop_witness :
    notifyWrapper envReturns wMeth1.dispose [defaultHandlerRecord]
        (PyVal.obj 1) (PyVal.str "x") (PyVal.int 0) (PyVal.int 5)
      = noCall :=
  c5_disposed_noop_amended.2.1 envReturns wMeth1 [defaultHandlerRecord]
    (PyVal.obj 1) (PyVal.str "x") (PyVal.int 0) (PyVal.int 5) 1 rfl

/-- C9 is false on its idempotence clause: after a completed cleanup has
set `self.owner = None`, running `listener_deleted` again evaluates
`None.remove(self)` and raises an `AttributeError` (which the
`except ValueError` clause does not catch).  Starting from the live
wrapper `wMeth1` in the collection `[5]`, the first cleanup succeeds and
the second one errors. -/
theorem c9_double_cleanup_counterexample :
    (TraitChangeNotifyWrapper.listener_deleted 5 [5] wMeth1).map
        (fun p =>
          isErr (TraitChangeNotifyWrapper.listener_deleted 5 p.1 p.2))
      = Except.ok true := by
  rfl

/-- C9 (amended): while `self.owner` is still set, `listener_deleted`
removes the registration from its owning collection (when the registration
occurs at most once, it is absent afterwards), treats an already-removed
registration as satisfied — the collection is left unchanged and nothing
is raised — and leaves the wrapper disposed, so a subsequent notification
through the rebind path invokes nothing.  Running the cleanup again after
it has completed, however, raises an `AttributeError` instead of being
idempotent. -/
theorem c9_listener_deleted_amended (selfId : Nat) (coll : List Nat)
    (w : TraitChangeNotifyWrapper) (howner : w.ownerSet = true) :
    ∃ w', TraitChangeNotifyWrapper.listener_deleted selfId coll w
        = Except.ok (coll.erase selfId, w') ∧
      w'.object = none ∧ w'.ownerSet = false ∧
      w'.call_method = w.call_method ∧
      (coll.count selfId ≤ 1 → selfId ∉ coll.erase selfId) ∧
      (selfId ∉ coll → coll.erase selfId = coll) ∧
      isErr (TraitChangeNotifyWrapper.listener_deleted selfId
        (coll.erase selfId) w') = true ∧
      (∀ (env : ListenerEnv)
          (stack : List NotificationExceptionHandlerState)
          (obj name old new : PyVal) (a : Fin 5),
          w'.call_method = CallMethod.rebind_call a →
          notifyWrapper env w' stack obj name old new = noCall) := by
  refine ⟨{ w with object := none, ownerSet := false }, ?_, rfl, rfl, rfl,
    ?_, ?_, ?_, ?_⟩
  · simp [TraitChangeNotifyWrapper.listener_deleted, howner]
  · intro hcount
    by_cases hmem : selfId ∈ coll
    · have h1 : coll.count selfId = 1 := by
        have := List.count_pos_iff.mpr hmem
        omega
      have h2 : (coll.erase selfId).count selfId = 0 := by
        rw [List.count_erase_self, h1]
      exact List.count_eq_zero.mp h2
    · rw [List.erase_of_not_mem hmem]
      exact hmem
  · intro hmem
    exact List.erase_of_not_mem hmem
  · simp [TraitChangeNotifyWrapper.listener_deleted, isErr]
  · intro env stack obj name old new a hcm
    exact notify_rebind_object_none env _ stack obj name old new a hcm rfl

/-- C9 amended, applied: cleaning up `wMeth1` (identity 5) from the
collection `[5]` removes it, disposes the wrapper, and a repeated cleanup
errors. -/
theorem c9_listener_deleted_witness :
    ∃ w', TraitChangeNotifyWrapper.listener_deleted 5 [5] wMeth1
        = Except.ok (List.erase [5] 5, w') ∧
      w'.object = none ∧ w'.ownerSet = false ∧
      w'.call_method = wMeth1.call_method ∧
      (List.count 5 [5] ≤ 1 → 5 ∉ List.erase [5] 5) ∧
      ((5 : Nat) ∉ [(5 : Nat)] → List.erase [5] 5 = [5]) ∧
      isErr (TraitChangeNotifyWrapper.listener_deleted 5
        (List.erase [5] 5) w') = true ∧
      (∀ (env : ListenerEnv)
          (stack : List NotificationExceptionHandlerState)
          (obj name old new : PyVal) (a : Fin 5),
          w'.call_method = CallMethod.rebind_call a →
          notifyWrapper env w' stack obj name old new = noCall) :=
  c9_listener_deleted_amended 5 [5] wMeth1 rfl

/-!
## C6 / C7 — handler-stack operations and the per-thread invariant
-/

/-- A successful `popRecord` popped a stack of length at least 2. -/
theorem popRecord_ok_cases
    {hs hs' : List NotificationExceptionHandlerState}
    (h : popRecord hs = Except.ok hs') : hs' = hs.tail ∧ 1 < hs.length := by
  unfold popRecord at h
  by_cases hl : check_lock hs = true
  · simp [hl] at h
  · by_cases hlen : hs.length > 1
    · simp [hl, hlen] at h
      exact ⟨h.symm, hlen⟩
    · simp [hl, hlen] at h

/-- A successful `pushRecord` put the new record on top. -/
theorem pushRecord_ok_cases
    {hs hs' : List NotificationExceptionHandlerState}
    {r : NotificationExceptionHandlerState}
    (h : pushRecord hs r = Except.ok hs') : hs' = r :: hs := by
  unfold pushRecord at h
  by_cases hl : check_lock hs = true
  · simp [hl] at h
  · simp [hl] at h
    exact h.symm

/-- C6: on one thread's handler stack, `_pop_handler` fails with a
`TraitNotificationError` exactly when a single record remains or the top
record is locked, and `_push_handler` fails exactly when the top record is
locked (a failure raises before any mutation, so the stack is unchanged);
consequently, starting from the single default record, push-push-pop-pop
restores exactly `[default]`, a third pop fails, and a push onto a locked
top fails. -/
theorem c6_handler_stack_push_pop :
    (∀ hs : List NotificationExceptionHandlerState, hs ≠ [] →
        (isErr (popRecord hs) = true ↔
          (hs.length = 1 ∨ check_lock hs = true))) ∧
    (∀ (hs : List NotificationExceptionHandlerState)
        (r : NotificationExceptionHandlerState),
        isErr (pushRecord hs r) = true ↔ check_lock hs = true) ∧
    (∀ (r : NotificationExceptionHandlerState)
        (hs : List NotificationExceptionHandlerState)
        (q : NotificationExceptionHandlerState),
        r.locked = true → isErr (pushRecord (r :: hs) q) = true) ∧
    (pushRecord [defaultHandlerRecord] defaultHandlerRecord
        = Except.ok [defaultHandlerRecord, defaultHandlerRecord]) ∧
    (pushRecord [defaultHandlerRecord, defaultHandlerRecord]
        defaultHandlerRecord
      = Except.ok [defaultHandlerRecord, defaultHandlerRecord,
          defaultHandlerRecord]) ∧
    (popRecord [defaultHandlerRecord, defaultHandlerRecord,
        defaultHandlerRecord]
      = Except.ok [defaultHandlerRecord, defaultHandlerRecord]) ∧
    (popRecord [defaultHandlerRecord, defaultHandlerRecord]
      = Except.ok [defaultHandlerRecord]) ∧
    (popRecord [defaultHandlerRecord]
      = Except.error (Exc.traitNotificationError popMsg)) := by
  refine ⟨?_, ?_, ?_, rfl, rfl, rfl, rfl, rfl⟩
  · intro hs hne
    cases hs with
    | nil => exact absurd rfl hne
    | cons a t =>
        cases hl : a.locked with
        | true => simp [popRecord, check_lock, hl, isErr]
        | false =>
            cases t with
            | nil => simp [popRecord, check_lock, hl, isErr]
            | cons b u =>
                simp [popRecord, check_lock, hl, isErr]
                try omega
  · intro hs r
    by_cases hl : check_lock hs = true <;> simp [pushRecord, hl, isErr]
  · intro r hs q hlk
    simp [pushRecord, check_lock, hlk, isErr]

/-- C6 applied: popping the single default record fails (by the
failure characterization), and pushing onto a locked top record fails. -/
theorem c6_handler_stack_push_pop_witness :
    (isErr (popRecord [defaultHandlerRecord]) = true ↔
      (([defaultHandlerRecord] :
          List NotificationExceptionHandlerState).length = 1 ∨
        check_lock [defaultHandlerRecord] = true)) ∧
    isErr (pushRecord [{ defaultHandlerRecord with locked := true }]
        defaultHandlerRecord) = true :=
  ⟨c6_handler_stack_push_pop.1 [defaultHandlerRecord] (by simp),
   c6_handler_stack_push_pop.2.2.1
     { defaultHandlerRecord with locked := true } [] defaultHandlerRecord
     rfl⟩

/-- `_get_handlers` preserves the handler-state invariant. -/
theorem getHandlers_wf (s : NEHState) (tid : Nat) (h : NEHState.WF s) :
    NEHState.WF (getHandlers s tid).2 := by
  unfold getHandlers
  cases hst : s.threadStacks tid with
  | some hs => exact h
  | none =>
      refine ⟨?_, ?_⟩
      · intro t hs ht
        simp only at ht
        by_cases he : t = tid
        · subst he
          simp at ht
          subst ht
          simp
        · simp [he] at ht
          exact h.1 t hs ht
      · intro m hm
        simp only at hm
        by_cases he : m = tid
        · subst he
          simp
        · simp [he]
          exact h.2 m hm

/-- The stack `_get_handlers` returns is never empty. -/
theorem getHandlers_ne_nil (s : NEHState) (tid : Nat)
    (h : NEHState.WF s) : (getHandlers s tid).1 ≠ [] := by
  unfold getHandlers
  cases hst : s.threadStacks tid with
  | some hs => exact h.1 tid hs hst
  | none => simp

/-- `_push_handler` preserves the handler-state invariant. -/
theorem push_handler_wf (s : NEHState) (tid : Nat)
    (h : Option HandlerFn) (re mn lk : Bool)
    (res : NotificationExceptionHandlerState × NEHState)
    (hwf : NEHState.WF s)
    (hok : push_handler s tid h re mn lk = Except.ok res) :
    NEHState.WF res.2 := by
  have hwf2 : NEHState.WF (getHandlers s tid).2 := getHandlers_wf s tid hwf
  simp only [push_handler] at hok
  cases hpr : pushRecord (getHandlers s tid).1
      { handler := h.getD HandlerFn.logException,
        reraise_exceptions := re, locked := lk } with
  | error e =>
      rw [hpr] at hok
      cases hok
  | ok hs' =>
      rw [hpr] at hok
      have hcons := pushRecord_ok_cases hpr
      injection hok with hok'
      rw [← hok']
      have hmain :
          (if mn then
              { { (getHandlers s tid).2 with
                    threadStacks := fun t =>
                      if t = tid then some hs'
                      else (getHandlers s tid).2.threadStacks t } with
                  main_thread := some tid }
            else
              { (getHandlers s tid).2 with
                  threadStacks := fun t =>
                    if t = tid then some hs'
                    else (getHandlers s tid).2.threadStacks t }) =
          ({ threadStacks := fun t =>
               if t = tid then some hs'
               else (getHandlers s tid).2.threadStacks t,
             main_thread :=
               if mn then some tid
               else (getHandlers s tid).2.main_thread } : NEHState) := by
        cases mn <;> rfl
      simp only [hmain]
      refine ⟨?_, ?_⟩
      · intro t hs ht
        simp only at ht
        by_cases he : t = tid
        · subst he
          simp at ht
          subst ht
          rw [hcons]
          exact List.cons_ne_nil _ _
        · simp [he] at ht
          exact hwf2.1 t hs ht
      · intro m hm
        simp only at hm
        by_cases he : m = tid
        · subst he
          simp
        · simp [he]
          cases hmn : mn with
          | true =>
              rw [hmn] at hm
              simp at hm
              exact absurd hm.symm he
          | false =>
              rw [hmn] at hm
              simp at hm
              exact hwf2.2 m hm

/-- `_pop_handler` preserves the handler-state invariant. -/
theorem pop_handler_wf (s : NEHState) (tid : Nat) (s' : NEHState)
    (hwf : NEHState.WF s)
    (hok : pop_handler s tid = Except.ok s') : NEHState.WF s' := by
  have hwf2 : NEHState.WF (getHandlers s tid).2 := getHandlers_wf s tid hwf
  simp only [pop_handler] at hok
  cases hpr : popRecord (getHandlers s tid).1 with
  | error e =>
      rw [hpr] at hok
      cases hok
  | ok hs' =>
      rw [hpr] at hok
      have htail := popRecord_ok_cases hpr
      injection hok with hok'
      rw [← hok']
      refine ⟨?_, ?_⟩
      · intro t hs ht
        simp only at ht
        by_cases he : t = tid
        · subst he
          simp at ht
          subst ht
          rw [htail.1]
          have := htail.2
          intro hnil
          rw [← List.length_eq_zero] at hnil
          rw [List.length_tail] at hnil
          omega
        · simp [he] at ht
          exact hwf2.1 t hs ht
      · intro m hm
        simp only at hm
        by_cases he : m = tid
        · subst he
          simp
        · simp [he]
          exact hwf2.2 m hm

/-- When `_push_handler` is called with `main=True` and succeeds, the
calling thread becomes the designated main thread. -/
theorem push_handler_main (s : NEHState) (tid : Nat)
    (h : Option HandlerFn) (re lk : Bool)
    (res : NotificationExceptionHandlerState × NEHState)
    (hok : push_handler s tid h re true lk = Except.ok res) :
    res.2.main_thread = some tid := by
  simp only [push_handler] at hok
  cases hpr : pushRecord (getHandlers s tid).1
      { handler := h.getD HandlerFn.logException,
        reraise_exceptions := re, locked := lk } with
  | error e =>
      rw [hpr] at hok
      cases hok
  | ok hs' =>
      rw [hpr] at hok
      injection hok with hok'
      rw [← hok']
      simp

/-- C7: every thread's handler stack is created lazily on first use as
exactly one record — the current top of the designated main thread's stack
when `_push_handler(main=True)` designated one, else the built-in default
logging record with `reraise_exceptions` and `locked` both false — and
`_get_handlers`, `_push_handler`, `_pop_handler` and `_handle_exception`
all preserve the invariant that every created stack is non-empty. -/
theorem c7_thread_stack_lazy_init :
    (NEHState.WF initialNEHState) ∧
    (∀ (s : NEHState) (tid : Nat), NEHState.WF s →
        s.threadStacks tid = none → s.main_thread = none →
        (getHandlers s tid).1 = [defaultHandlerRecord]) ∧
    (∀ (s : NEHState) (tid m : Nat)
        (mhs : List NotificationExceptionHandlerState), NEHState.WF s →
        s.threadStacks tid = none → s.main_thread = some m →
        s.threadStacks m = some mhs →
        (getHandlers s tid).1 = [mhs.headD defaultHandlerRecord]) ∧
    (∀ (s : NEHState) (tid : Nat), NEHState.WF s →
        (getHandlers s tid).1 ≠ [] ∧ NEHState.WF (getHandlers s tid).2) ∧
    (∀ (s : NEHState) (tid : Nat) (h : Option HandlerFn) (re mn lk : Bool)
        (res : NotificationExceptionHandlerState × NEHState),
        NEHState.WF s → push_handler s tid h re mn lk = Except.ok res →
        NEHState.WF res.2) ∧
    (∀ (s : NEHState) (tid : Nat) (s' : NEHState), NEHState.WF s →
        pop_handler s tid = Except.ok s' → NEHState.WF s') ∧
    (∀ (s : NEHState) (tid : Nat) (e : Exc) (obj name old new : PyVal),
        NEHState.WF s →
        NEHState.WF (handle_exception_st s tid e obj name old new).2) ∧
    (∀ (s : NEHState) (tid : Nat) (h : Option HandlerFn) (re lk : Bool)
        (res : NotificationExceptionHandlerState × NEHState),
        push_handler s tid h re true lk = Except.ok res →
        res.2.main_thread = some tid) := by
  refine ⟨?_, ?_, ?_, ?_, ?_, ?_, ?_, ?_⟩
  · exact ⟨(fun _ _ h => nomatch h), (fun _ h => nomatch h)⟩
  · intro s tid _ hst hmain
    simp [getHandlers, hst, hmain]
  · intro s tid m mhs _ hst hm hms
    simp [getHandlers, hst, hm, hms]
  · intro s tid hwf
    exact ⟨getHandlers_ne_nil s tid hwf, getHandlers_wf s tid hwf⟩
  · exact fun s tid h re mn lk res hwf hok =>
      push_handler_wf s tid h re mn lk res hwf hok
  · exact fun s tid s' hwf hok => pop_handler_wf s tid s' hwf hok
  · intro s tid e obj name old new hwf
    simp only [handle_exception_st]
    exact getHandlers_wf s tid hwf
  · exact fun s tid h re lk res hok => push_handler_main s tid h re lk res hok

/-- C7 applied: from the pristine state, thread 0's stack is created as
exactly the default logging record; after thread 1 pushes a user handler
with `main=True`, thread 1 is the designated main thread. -/
theorem c7_thread_stack_lazy_init_witness :
    (getHandlers initialNEHState 0).1 = [defaultHandlerRecord] ∧
    (∀ res, push_handler initialNEHState 1 (some (HandlerFn.user 3)) false
        true false = Except.ok res → res.2.main_thread = some 1) :=
  ⟨c7_thread_stack_lazy_init.2.1 initialNEHState 0
      c7_thread_stack_lazy_init.1 rfl rfl,
   fun res hok => c7_thread_stack_lazy_init.2.2.2.2.2.2.2 initialNEHState 1
      (some (HandlerFn.user 3)) false false res hok⟩

/-!
## C8 — equality used by unregister-by-callback
-/

/-- Spec §4.3 equality, transcribed from the specification's words: the
supplied handler matches the registration exactly when (a) it is the
registration itself, or (b) both are weakly bound to the same method name
on the same still-live receiver, or (c) the registration is not weakly
bound (it stores no method name) and the handler compares equal to the
stored callback. -/
def equalsSpec (w : TraitChangeNotifyWrapper) (arg : EqualsArg) : Prop :=
  arg = EqualsArg.selfRef ∨
  (∃ hname cnt recv,
      arg = EqualsArg.py (PyHandler.boundMethod hname cnt (some recv)) ∧
      w.name = some hname ∧ w.object = some (WeakRef.alive recv)) ∨
  (w.name = none ∧ ∃ h, arg = EqualsArg.py h ∧ w.handler = some h)

/-- A wrapper passing `storedHandlerOK` never stores a receiver-bound
method. -/
theorem storedHandlerOK_not_bound {w : TraitChangeNotifyWrapper}
    (hwf : storedHandlerOK w = true) (f : String) (c r : Nat) :
    w.handler ≠ some (PyHandler.boundMethod f c (some r)) := by
  intro h
  simp [storedHandlerOK, h] at hwf

/-- C8: for every registration reachable from `init` (no stored
receiver-bound method) and every supplied callback, `equals` answers
`True` exactly under the spec's three clauses: identity, same weakly-bound
method name on the same still-live receiver, or not weakly bound with an
equal stored callback.  (A disposed method-bound wrapper queried with a
matching name raises `TypeError` — `self.object()` with `object = None` —
which is not an affirmative answer either.) -/
theorem c8_equals_characterization (w : TraitChangeNotifyWrapper)
    (arg : EqualsArg) (hwf : storedHandlerOK w = true) :
    (TraitChangeNotifyWrapper.equals w arg = Except.ok true) ↔
      equalsSpec w arg := by
  obtain ⟨n, hd, ob, ow, cm⟩ := w
  cases arg with
  | selfRef => simp [TraitChangeNotifyWrapper.equals, equalsSpec]
  | py h =>
      cases h with
      | function f c =>
          cases n with
          | none =>
              cases hd with
              | none =>
                  simp [TraitChangeNotifyWrapper.equals, equalsSpec]
              | some h0 =>
                  simp [TraitChangeNotifyWrapper.equals, equalsSpec,
                    eq_comm]
          | some s =>
              simp [TraitChangeNotifyWrapper.equals, equalsSpec]
      | boundMethod f c os =>
          cases os with
          | none =>
              cases n with
              | none =>
                  cases hd with
                  | none =>
                      simp [TraitChangeNotifyWrapper.equals, equalsSpec]
                  | some h0 =>
                      simp [TraitChangeNotifyWrapper.equals, equalsSpec,
                        eq_comm]
              | some s =>
                  simp [TraitChangeNotifyWrapper.equals, equalsSpec]
          | some recv =>
              cases n with
              | none =>
                  have hnb := storedHandlerOK_not_bound hwf f c recv
                  simp only [TraitChangeNotifyWrapper.handler] at hnb
                  simp [TraitChangeNotifyWrapper.equals, equalsSpec, hnb]
              | some s =>
                  by_cases hsf : s = f
                  · subst hsf
                    cases ob with
                    | none =>
                        simp [TraitChangeNotifyWrapper.equals, equalsSpec]
                    | some ref =>
                        cases ref with
                        | dead =>
                            simp [TraitChangeNotifyWrapper.equals,
                              equalsSpec]
                        | alive r =>
                            simp [TraitChangeNotifyWrapper.equals,
                              equalsSpec, eq_comm]
                  · simp [TraitChangeNotifyWrapper.equals, equalsSpec, hsf,
                      Ne.symm hsf]

/-- C8 applied: the method-bound registration `wMeth1` (method `m`, live
receiver 2) matched against the bound method `m` of receiver 2. -/
theorem c8_equals_characterization_witness :
    (TraitChangeNotifyWrapper.equals wMeth1
        (EqualsArg.py (PyHandler.boundMethod "m" 2 (some 2)))
      = Except.ok true) ↔
      equalsSpec wMeth1
        (EqualsArg.py (PyHandler.boundMethod "m" 2 (some 2))) :=
  c8_equals_characterization wMeth1
    (EqualsArg.py (PyHandler.boundMethod "m" 2 (some 2))) rfl
